import Mathlib

/-!
Shallow embedding of the stream-lifecycle core of the mytube backend
(`src/rtmp.ts`: the RTMP webhook router and the `StreamManager` class, and
`src/websocket.ts`: the `WebSocketManager` class).

The persisted `streams` table, the `stream_events` log, the in-memory
`recordingProcesses` map, the set of spawned subprocesses, the filesystem
paths and the WebSocket broadcasts are modelled as explicit state
(`MState`).  Wall-clock times are naturals (milliseconds, as returned by
`Date.now()`); durations are integers computed with floor division, as
`Math.floor((now - start) / 1000)` computes them.  Each operation is a
function `... → MState → MState × Option SMErr`: a thrown error is the
`some` component, and the returned state is the state as committed at the
moment of the throw (database writes are individual awaited statements and
are never rolled back).
-/

/-- Lifecycle status values of the `streams.status` column
(schema: CHECK (status IN ('created', 'live', 'ended', 'error'))). -/
inductive Status where
  | created
  | live
  | ended
  | error
deriving DecidableEq, Repr

/-- One row of the persisted `streams` table (the columns the lifecycle
code reads or writes).  `metadata` is the JSONB column, kept as an opaque
association list. -/
structure StreamRec where
  id : Nat
  ingest_key : Nat
  status : Status
  start_time : Option Nat
  end_time : Option Nat
  duration : Option Int
  recording_path : Option String
  hls_path : Option String
  metadata : List (String × String)
  viewer_count : Nat
  max_viewers : Nat
deriving DecidableEq, Repr

/-- Tag for a column write performed by an executed `UPDATE streams SET ...`
statement that matched a row; used to observe how often each timing field
is written. -/
inductive FieldW where
  | statusW
  | startTimeW
  | endTimeW
  | durationW
  | pathsW
  | metadataW
deriving DecidableEq, Repr

/-- Errors thrown by the lifecycle code: `Error('Stream not found')`,
`Error('Stream is already live')`, a failure inside
`startRecording` (mkdirSync / spawn), a thrown `fs.unlinkSync`, and the
403 rejection of an unknown ingest key. -/
inductive SMErr where
  | notFound
  | alreadyLive
  | resourceFailure
  | fsFailure
  | invalidIngestKey
deriving DecidableEq, Repr

/-- The whole observable state: the `streams` table, the `stream_events`
log (stream id and event type), the `recordingProcesses` map (stream id to
process id), the log of every subprocess ever spawned, the pids that were
sent SIGTERM, the WebSocket broadcast types emitted, the column-write log,
a pid counter, and the set of extant filesystem paths. -/
structure MState where
  streams : List StreamRec
  events : List (Nat × String)
  handles : List (Nat × Nat)
  spawned : List (Nat × Nat)
  killed : List Nat
  broadcasts : List String
  writes : List (Nat × FieldW)
  nextPid : Nat
  fsPaths : List String
deriving DecidableEq, Repr

/-- `SELECT * FROM streams WHERE id = $1`, first row or null
(`StreamManager.getStream`). -/
def getStream (s : MState) (id : Nat) : Option StreamRec :=
  s.streams.find? (fun r => r.id == id)

/-- `SELECT ... FROM streams WHERE ingest_key = $1`, first row or null
(the lookup in the /publish and /unpublish handlers). -/
def findByIngest (s : MState) (k : Nat) : Option StreamRec :=
  s.streams.find? (fun r => r.ingest_key == k)

/-- `UPDATE streams SET ... WHERE id = $1`: apply `f` to every row whose
id matches. -/
def updStream (s : MState) (id : Nat) (f : StreamRec → StreamRec) : MState :=
  { s with streams := s.streams.map (fun r => if r.id == id then f r else r) }

/-- Record the column writes of an `UPDATE ... WHERE id = $1` statement,
provided the statement matched a row. -/
def recordWrites (s : MState) (id : Nat) (fs : List FieldW) : MState :=
  if s.streams.any (fun r => r.id == id) then
    { s with writes := s.writes ++ fs.map (fun f => (id, f)) }
  else s

/-- `INSERT INTO stream_events (stream_id, event_type, ...) VALUES ...`
(`StreamManager.logStreamEvent` and the inline inserts in the router). -/
def logEvent (s : MState) (id : Nat) (ty : String) : MState :=
  { s with events := s.events ++ [(id, ty)] }

/-- `this.wsManager.broadcast(type, ...)`: record the emitted type. -/
def wsNotify (s : MState) (ty : String) : MState :=
  { s with broadcasts := s.broadcasts ++ [ty] }

/-- JS `Map.set` on the `recordingProcesses` map: replace the entry for an
existing key, otherwise append. -/
def mapSet (m : List (Nat × Nat)) (k v : Nat) : List (Nat × Nat) :=
  if m.any (fun p => p.1 == k) then
    m.map (fun p => if p.1 == k then (k, v) else p)
  else m ++ [(k, v)]

/-- JS `Map.delete` on the `recordingProcesses` map. -/
def mapDelete (m : List (Nat × Nat)) (k : Nat) : List (Nat × Nat) :=
  m.filter (fun p => ! (p.1 == k))

/-- `path.join(process.env.HLS_PATH || './storage/hls', streamId)`. -/
def hlsDirOf (id : Nat) : String := "./storage/hls/" ++ toString id

/-- `path.join(process.env.RECORDINGS_PATH || './storage/recordings',
streamId + '.mp4')`. -/
def recordingPathOf (id : Nat) : String :=
  "./storage/recordings/" ++ toString id ++ ".mp4"

/-- `path.join(hlsDir, 'index.m3u8')`. -/
def hlsIndexOf (id : Nat) : String := hlsDirOf id ++ "/index.m3u8"

/-- `path.dirname`: drop the last `/`-separated component. -/
def dirname (p : String) : String :=
  String.intercalate "/" ((p.splitOn "/").dropLast)

/-- The row mutation of `UPDATE streams SET status='live',
start_time=NOW()`. -/
def setLive (now : Nat) (r : StreamRec) : StreamRec :=
  { r with status := Status.live, start_time := some now }

/-- The row mutation of `UPDATE streams SET status='ended', end_time=NOW(),
duration=$2`. -/
def setEnded (now : Nat) (d : Int) (r : StreamRec) : StreamRec :=
  { r with status := Status.ended, end_time := some now, duration := some d }

/-- The row mutation of `UPDATE streams SET recording_path=$1,
hls_path=$2`. -/
def setPaths (id : Nat) (r : StreamRec) : StreamRec :=
  { r with
    recording_path := some (recordingPathOf id),
    hls_path := some (hlsIndexOf id) }

/-- The row mutation of `UPDATE streams SET metadata=$1`. -/
def setMeta (md : List (String × String)) (r : StreamRec) : StreamRec :=
  { r with metadata := md }

/-- `Math.floor((Date.now() - new Date(stream.start_time).getTime()) / 1000)`
when `start_time` is set, else 0 (duration computation in `stopStream` and
the /unpublish handler). -/
def computeDuration (now : Nat) (st : StreamRec) : Int :=
  match st.start_time with
  | some t => Int.fdiv ((now : Int) - (t : Int)) 1000
  | none => 0

/-- `StreamManager.startRecording(stream)` on its success path: create the
HLS directory if missing, spawn the ffmpeg subprocess (registering
close/error handlers, see `onProcessExit`), store the handle in
`recordingProcesses`, then `UPDATE streams SET recording_path, hls_path`. -/
def startRecording (s : MState) (st : StreamRec) : MState :=
  let pid := s.nextPid
  let s1 : MState :=
    { s with
      fsPaths :=
        if s.fsPaths.contains (hlsDirOf st.id) then s.fsPaths
        else s.fsPaths ++ [hlsDirOf st.id],
      spawned := s.spawned ++ [(st.id, pid)],
      handles := mapSet s.handles st.id pid,
      nextPid := pid + 1 }
  recordWrites (updStream s1 st.id (setPaths st.id)) st.id [FieldW.pathsW]

/-- `StreamManager.startStream(streamId)`.  `resFail` injects a
`ResourceFailure` thrown inside `startRecording` (mkdirSync or spawn
failing before any of its effects); the status update has already been
committed when that happens. -/
def startStream (now : Nat) (id : Nat) (resFail : Bool) (s : MState) :
    MState × Option SMErr :=
  match getStream s id with
  | none => (s, some SMErr.notFound)
  | some st =>
    if st.status = Status.live then (s, some SMErr.alreadyLive)
    else
      let s1 := recordWrites (updStream s id (setLive now))
        id [FieldW.statusW, FieldW.startTimeW]
      if resFail then (s1, some SMErr.resourceFailure)
      else
        let s2 := startRecording s1 st
        let s3 := logEvent s2 id "stream_started"
        let s4 := wsNotify s3 "stream_started"
        (s4, none)

/-- `StreamManager.stopRecording(streamId)`: if a handle exists, SIGTERM
the process and delete the map entry; otherwise do nothing. -/
def stopRecording (s : MState) (id : Nat) : MState :=
  match s.handles.find? (fun p => p.1 == id) with
  | some p =>
    { s with killed := s.killed ++ [p.2], handles := mapDelete s.handles id }
  | none => s

/-- `StreamManager.stopStream(streamId)`: fetch, stop recording, compute
duration from the fetched row's `start_time`, `UPDATE` status/end_time/
duration, log the event, broadcast.  (The cloud offload is configuration
gated and failure-swallowed; it has no effect on the modelled state.) -/
def stopStream (now : Nat) (id : Nat) (s : MState) : MState × Option SMErr :=
  match getStream s id with
  | none => (s, some SMErr.notFound)
  | some st =>
    let s1 := stopRecording s id
    let d := computeDuration now st
    let s2 := recordWrites (updStream s1 id (setEnded now d))
      id [FieldW.statusW, FieldW.endTimeW, FieldW.durationW]
    let s3 := logEvent s2 id "stream_ended"
    let s4 := wsNotify s3 "stream_ended"
    (s4, none)

/-- The `router.post('/publish')` handler: resolve the ingest key (403 on
miss), unconditionally `UPDATE streams SET status='live',
start_time=NOW()`, insert an `rtmp_publish_started` event.  It spawns no
subprocess and performs no status guard. -/
def publish (now : Nat) (key : Nat) (s : MState) : MState × Option SMErr :=
  match findByIngest s key with
  | none => (s, some SMErr.invalidIngestKey)
  | some st =>
    let s1 := recordWrites (updStream s st.id (setLive now))
      st.id [FieldW.statusW, FieldW.startTimeW]
    let s2 := logEvent s1 st.id "rtmp_publish_started"
    (s2, none)

/-- The `router.post('/unpublish')` handler: resolve the ingest key (200
even on miss), compute the duration, `UPDATE streams SET status='ended',
end_time=NOW(), duration=$2`, insert an `rtmp_publish_stopped` event. -/
def unpublish (now : Nat) (key : Nat) (s : MState) : MState × Option SMErr :=
  match findByIngest s key with
  | none => (s, none)
  | some st =>
    let d := computeDuration now st
    let s1 := recordWrites (updStream s st.id (setEnded now d))
      st.id [FieldW.statusW, FieldW.endTimeW, FieldW.durationW]
    let s2 := logEvent s1 st.id "rtmp_publish_stopped"
    (s2, none)

/-- The ffmpeg `'close'` and `'error'` handlers registered in
`startRecording`: their entire body is
`this.recordingProcesses.delete(streamId)` (plus a console log). -/
def onProcessExit (id : Nat) (s : MState) : MState :=
  { s with handles := mapDelete s.handles id }

/-- `StreamManager.updateStreamMetadata(streamId, metadata)`:
`UPDATE streams SET metadata = $1 WHERE id = $2`, no existence check. -/
def updateStreamMetadata (id : Nat) (md : List (String × String))
    (s : MState) : MState :=
  recordWrites (updStream s id (setMeta md)) id [FieldW.metadataW]

/-- The recording-file removal step of `deleteStream`:
`if (stream.recording_path && fs.existsSync(...)) fs.unlinkSync(...)`.
`unlinkFails` injects a thrown `unlinkSync`, which propagates. -/
def removeRecordingFile (st : StreamRec) (unlinkFails : Bool) (s : MState) :
    MState × Option SMErr :=
  match st.recording_path with
  | some p =>
    if s.fsPaths.contains p then
      if unlinkFails then (s, some SMErr.fsFailure)
      else ({ s with fsPaths := s.fsPaths.filter (fun q => ! (q == p)) }, none)
    else (s, none)
  | none => (s, none)

/-- The HLS-directory removal step of `deleteStream`:
`fs.rmSync(path.dirname(stream.hls_path), { recursive: true, force: true })`
guarded by `existsSync`. -/
def removeHlsDir (st : StreamRec) (s : MState) : MState :=
  match st.hls_path with
  | some hp =>
    let d := dirname hp
    if s.fsPaths.contains d then
      { s with fsPaths := s.fsPaths.filter (fun q => ! (q == d)) }
    else s
  | none => s

/-- `StreamManager.deleteStream(streamId)`: fetch (throw NotFound on
miss), stop any recording, remove the recording file (a thrown unlink
propagates), remove the HLS directory, then
`DELETE FROM streams WHERE id = $1`. -/
def deleteStream (id : Nat) (unlinkFails : Bool) (s : MState) :
    MState × Option SMErr :=
  match getStream s id with
  | none => (s, some SMErr.notFound)
  | some st =>
    let s1 := stopRecording s id
    match removeRecordingFile st unlinkFails s1 with
    | (s2, some e) => (s2, some e)
    | (s2, none) =>
      let s3 := removeHlsDir st s2
      let s4 := { s3 with streams := s3.streams.filter (fun r => ! (r.id == id)) }
      (s4, none)

/-- A lifecycle trigger: control-API start/stop, ingest-side
publish/unpublish, or an observed subprocess exit. -/
inductive Trig where
  | start (now : Nat) (id : Nat) (resFail : Bool)
  | stop (now : Nat) (id : Nat)
  | pub (now : Nat) (key : Nat)
  | unpub (now : Nat) (key : Nat)
  | procExit (id : Nat)
deriving DecidableEq, Repr

/-- Apply one trigger (a thrown error leaves the state as committed). -/
def step (s : MState) (t : Trig) : MState :=
  match t with
  | Trig.start now id rf => (startStream now id rf s).1
  | Trig.stop now id => (stopStream now id s).1
  | Trig.pub now k => (publish now k s).1
  | Trig.unpub now k => (unpublish now k s).1
  | Trig.procExit id => onProcessExit id s

/-- Apply a sequence of triggers in order. -/
def run (s : MState) (ts : List Trig) : MState :=
  ts.foldl step s

/-- Number of writes of column `f` the stream `id` has received. -/
def countW (s : MState) (id : Nat) (f : FieldW) : Nat :=
  s.writes.count (id, f)

/-!
Embedding of `src/websocket.ts` (`WebSocketManager`).  A `ws` send on an
OPEN socket never throws synchronously: transport failures surface
asynchronously on the socket's `'error'` event, whose handler (registered
in `setupWebSocketServer`) is `this.clients.delete(ws)`.  A client whose
send attempt fails is marked `pendingError`; `fireErrors` then applies the
registered error handler to every such client.
-/

/-- `ws` socket ready states. -/
inductive WReadyState where
  | CONNECTING
  | OPEN
  | CLOSING
  | CLOSED
deriving DecidableEq, Repr

/-- The `WebSocketMessage` shape `{ type, data, timestamp }`. -/
structure WMessage where
  mtype : String
  mdata : String
  timestamp : String
deriving DecidableEq, Repr

/-- A connected observer: identity, ready state, messages delivered so
far, whether a send to it fails, and whether a failed send is awaiting its
`'error'` event. -/
structure WClient where
  cid : Nat
  readyState : WReadyState
  inbox : List WMessage
  sendFails : Bool
  pendingError : Bool
deriving DecidableEq, Repr

/-- The `WebSocketManager` state: the `clients` set. -/
structure WSState where
  clients : List WClient
deriving DecidableEq, Repr

/-- `WebSocketManager.broadcast(type, data)`: build the message once, then
for each client with `readyState === OPEN` attempt `client.send`; a
failing send marks the client as awaiting its error event, a successful
one delivers the message. -/
def broadcast (ty md ts : String) (s : WSState) : WSState :=
  { clients := s.clients.map (fun c =>
      if c.readyState = WReadyState.OPEN then
        if c.sendFails then { c with pendingError := true }
        else { c with inbox := c.inbox ++ [⟨ty, md, ts⟩] }
      else c) }

/-- The per-connection `ws.on('error', ...)` handler:
`this.clients.delete(ws)`. -/
def onSocketError (cid : Nat) (s : WSState) : WSState :=
  { clients := s.clients.filter (fun c => ! (c.cid == cid)) }

/-- Resolution of all pending send failures: each failing socket emits
`'error'` and its handler removes it from the set. -/
def fireErrors (s : WSState) : WSState :=
  { clients := s.clients.filter (fun c => ! c.pendingError) }

/-!  Helper lemmas about the embedding. -/

theorem find?_some_id {l : List StreamRec} {id : Nat} {st : StreamRec}
    (h : l.find? (fun r => r.id == id) = some st) : st.id = id := by
  have := List.find?_some h
  simpa using this

theorem find?_some_key {l : List StreamRec} {k : Nat} {st : StreamRec}
    (h : l.find? (fun r => r.ingest_key == k) = some st) : st.ingest_key = k := by
  have := List.find?_some h
  simpa using this

theorem find?_upd_self (l : List StreamRec) (id : Nat)
    (f : StreamRec → StreamRec) (hf : ∀ r, (f r).id = r.id) :
    ∀ st, l.find? (fun r => r.id == id) = some st →
      (l.map (fun r => if r.id == id then f r else r)).find?
        (fun r => r.id == id) = some (f st) := by
  intro st h
  have hid : st.id = id := by simpa using List.find?_some h
  have hcomp : ((fun r : StreamRec => r.id == id) ∘
      (fun r : StreamRec => if r.id == id then f r else r)) =
      (fun r : StreamRec => r.id == id) := by
    funext r
    by_cases hr : r.id = id <;> simp [hr, hf]
  rw [List.find?_map, hcomp, h]
  simp [hid]

theorem find?_upd_ne (l : List StreamRec) (id j : Nat)
    (f : StreamRec → StreamRec) (hf : ∀ r, (f r).id = r.id) (hne : j ≠ id) :
    (l.map (fun r => if r.id == id then f r else r)).find?
      (fun r => r.id == j) = l.find? (fun r => r.id == j) := by
  have hcomp : ((fun r : StreamRec => r.id == j) ∘
      (fun r : StreamRec => if r.id == id then f r else r)) =
      (fun r : StreamRec => r.id == j) := by
    funext r
    by_cases hr : r.id = id <;> simp [hr, hf]
  rw [List.find?_map, hcomp]
  cases hfind : l.find? (fun r => r.id == j) with
  | none => simp
  | some st =>
    have hj : st.id = j := by simpa using List.find?_some hfind
    simp [hj, hne]

theorem find?_none_map_id (l : List StreamRec) (id : Nat)
    (f : StreamRec → StreamRec)
    (h : l.find? (fun r => r.id == id) = none) :
    l.map (fun r => if r.id == id then f r else r) = l := by
  rw [List.find?_eq_none] at h
  induction l with
  | nil => rfl
  | cons a t ih =>
    have ha := h a (by simp)
    simp only [List.map_cons]
    rw [if_neg (by simpa using ha), ih (fun x hx => h x (by simp [hx]))]

theorem any_of_find?_some {l : List StreamRec} {p : StreamRec → Bool}
    {st : StreamRec} (h : l.find? p = some st) : l.any p = true := by
  have hm := List.mem_of_find?_eq_some h
  have hp := List.find?_some h
  exact List.any_eq_true.mpr ⟨st, hm, hp⟩

theorem any_of_find?_none {l : List StreamRec} {p : StreamRec → Bool}
    (h : l.find? p = none) : l.any p = false := by
  rw [List.find?_eq_none] at h
  simp only [List.any_eq_false]
  intro x hx
  simpa using h x hx

theorem streams_recordWrites (s : MState) (id : Nat) (fs : List FieldW) :
    (recordWrites s id fs).streams = s.streams := by
  unfold recordWrites
  split <;> rfl

theorem streams_logEvent (s : MState) (id : Nat) (ty : String) :
    (logEvent s id ty).streams = s.streams := rfl

theorem streams_wsNotify (s : MState) (ty : String) :
    (wsNotify s ty).streams = s.streams := rfl

theorem streams_stopRecording (s : MState) (id : Nat) :
    (stopRecording s id).streams = s.streams := by
  unfold stopRecording
  split <;> rfl

theorem streams_updStream (s : MState) (id : Nat) (f : StreamRec → StreamRec) :
    (updStream s id f).streams =
      s.streams.map (fun r => if r.id == id then f r else r) := rfl

theorem streams_startRecording (s : MState) (st : StreamRec) :
    (startRecording s st).streams =
      s.streams.map (fun r => if r.id == st.id then setPaths st.id r else r) := by
  unfold startRecording
  rw [streams_recordWrites]
  rfl

theorem getStream_updStream_self (s : MState) (id : Nat)
    (f : StreamRec → StreamRec) (hf : ∀ r, (f r).id = r.id) (st : StreamRec)
    (h : getStream s id = some st) :
    getStream (updStream s id f) id = some (f st) :=
  find?_upd_self s.streams id f hf st h

theorem getStream_updStream_ne (s : MState) (id j : Nat)
    (f : StreamRec → StreamRec) (hf : ∀ r, (f r).id = r.id) (hne : j ≠ id) :
    getStream (updStream s id f) j = getStream s j :=
  find?_upd_ne s.streams id j f hf hne

theorem updStream_unknown (s : MState) (id : Nat) (f : StreamRec → StreamRec)
    (h : getStream s id = none) : updStream s id f = s := by
  unfold updStream
  rw [find?_none_map_id s.streams id f h]

theorem recordWrites_unknown (s : MState) (id : Nat) (fs : List FieldW)
    (h : getStream s id = none) : recordWrites s id fs = s := by
  unfold recordWrites
  rw [any_of_find?_none h]
  simp

theorem writes_recordWrites_known (s : MState) (id : Nat) (fs : List FieldW)
    (st : StreamRec) (h : getStream s id = some st) :
    (recordWrites s id fs).writes = s.writes ++ fs.map (fun f => (id, f)) := by
  unfold recordWrites
  rw [any_of_find?_some h]
  simp

theorem setLive_id (now : Nat) (r : StreamRec) : (setLive now r).id = r.id := rfl

theorem setEnded_id (now : Nat) (d : Int) (r : StreamRec) :
    (setEnded now d r).id = r.id := rfl

theorem setPaths_id (id : Nat) (r : StreamRec) : (setPaths id r).id = r.id := rfl

theorem setMeta_id (md : List (String × String)) (r : StreamRec) :
    (setMeta md r).id = r.id := rfl

theorem getStream_startRecording_self (s : MState) (st st' : StreamRec)
    (h : getStream s st.id = some st') :
    getStream (startRecording s st) st.id = some (setPaths st.id st') := by
  unfold startRecording
  show getStream (recordWrites _ _ _) _ = _
  unfold getStream
  rw [streams_recordWrites]
  exact find?_upd_self _ st.id _ (setPaths_id st.id) st' h

/-- Characterization of `startStream` when the stream exists and is
already live: reject, change nothing. -/
theorem startStream_alreadyLive (now id : Nat) (rf : Bool) (s : MState)
    (st : StreamRec) (hst : getStream s id = some st)
    (hl : st.status = Status.live) :
    startStream now id rf s = (s, some SMErr.alreadyLive) := by
  unfold startStream
  rw [hst]
  simp [hl]

/-- Characterization of `startStream` when the stream exists, is not live,
and the recording step throws: the status update is already committed. -/
theorem startStream_resFail (now id : Nat) (s : MState)
    (st : StreamRec) (hst : getStream s id = some st)
    (hnl : st.status ≠ Status.live) :
    startStream now id true s =
      (recordWrites (updStream s id (setLive now))
        id [FieldW.statusW, FieldW.startTimeW], some SMErr.resourceFailure) := by
  unfold startStream
  rw [hst]
  simp [hnl]

/-- Characterization of `startStream` on its success path. -/
theorem startStream_ok (now id : Nat) (s : MState)
    (st : StreamRec) (hst : getStream s id = some st)
    (hnl : st.status ≠ Status.live) :
    startStream now id false s =
      (wsNotify (logEvent
        (startRecording
          (recordWrites (updStream s id (setLive now))
            id [FieldW.statusW, FieldW.startTimeW]) st)
        id "stream_started") "stream_started", none) := by
  unfold startStream
  rw [hst]
  simp [hnl]

theorem startStream_unknown (now id : Nat) (rf : Bool) (s : MState)
    (h : getStream s id = none) :
    startStream now id rf s = (s, some SMErr.notFound) := by
  unfold startStream
  rw [h]

/-- Characterization of `stopStream` when the stream exists: it always
commits, whatever the current status. -/
theorem stopStream_known (now id : Nat) (s : MState)
    (st : StreamRec) (hst : getStream s id = some st) :
    stopStream now id s =
      (wsNotify (logEvent
        (recordWrites (updStream (stopRecording s id) id
            (setEnded now (computeDuration now st)))
          id [FieldW.statusW, FieldW.endTimeW, FieldW.durationW])
        id "stream_ended") "stream_ended", none) := by
  unfold stopStream
  rw [hst]

theorem stopStream_unknown (now id : Nat) (s : MState)
    (h : getStream s id = none) :
    stopStream now id s = (s, some SMErr.notFound) := by
  unfold stopStream
  rw [h]

/-- Characterization of `publish` when the ingest key resolves. -/
theorem publish_known (now key : Nat) (s : MState)
    (st : StreamRec) (hst : findByIngest s key = some st) :
    publish now key s =
      (logEvent
        (recordWrites (updStream s st.id (setLive now))
          st.id [FieldW.statusW, FieldW.startTimeW])
        st.id "rtmp_publish_started", none) := by
  unfold publish
  rw [hst]

theorem publish_unknown (now key : Nat) (s : MState)
    (h : findByIngest s key = none) :
    publish now key s = (s, some SMErr.invalidIngestKey) := by
  unfold publish
  rw [h]

theorem stopRecording_no_handle (s : MState) (id : Nat)
    (h : s.handles.find? (fun p => p.1 == id) = none) :
    stopRecording s id = s := by
  unfold stopRecording
  rw [h]

theorem unpublish_known (now key : Nat) (s : MState)
    (st : StreamRec) (hst : findByIngest s key = some st) :
    unpublish now key s =
      (logEvent
        (recordWrites (updStream s st.id (setEnded now (computeDuration now st)))
          st.id [FieldW.statusW, FieldW.endTimeW, FieldW.durationW])
        st.id "rtmp_publish_stopped", none) := by
  unfold unpublish
  rw [hst]

theorem unpublish_unknown (now key : Nat) (s : MState)
    (h : findByIngest s key = none) :
    unpublish now key s = (s, none) := by
  unfold unpublish
  rw [h]

theorem handles_recordWrites (s : MState) (id : Nat) (fs : List FieldW) :
    (recordWrites s id fs).handles = s.handles := by
  unfold recordWrites
  split <;> rfl

theorem spawned_recordWrites (s : MState) (id : Nat) (fs : List FieldW) :
    (recordWrites s id fs).spawned = s.spawned := by
  unfold recordWrites
  split <;> rfl

theorem events_recordWrites (s : MState) (id : Nat) (fs : List FieldW) :
    (recordWrites s id fs).events = s.events := by
  unfold recordWrites
  split <;> rfl

theorem writes_stopRecording (s : MState) (id : Nat) :
    (stopRecording s id).writes = s.writes := by
  unfold stopRecording
  split <;> rfl

theorem handles_stopRecording (s : MState) (id : Nat) :
    (stopRecording s id).handles = mapDelete s.handles id := by
  unfold stopRecording
  cases h : s.handles.find? (fun p => p.1 == id) with
  | some p => rfl
  | none =>
    show s.handles = mapDelete s.handles id
    rw [List.find?_eq_none] at h
    unfold mapDelete
    refine (List.filter_eq_self.mpr ?_).symm
    intro p hp
    simpa using h p hp

theorem getStream_recordWrites (s : MState) (id : Nat) (fs : List FieldW)
    (j : Nat) : getStream (recordWrites s id fs) j = getStream s j := by
  unfold getStream
  rw [streams_recordWrites]

theorem getStream_logEvent (s : MState) (id : Nat) (ty : String) (j : Nat) :
    getStream (logEvent s id ty) j = getStream s j := rfl

theorem getStream_wsNotify (s : MState) (ty : String) (j : Nat) :
    getStream (wsNotify s ty) j = getStream s j := rfl

theorem getStream_stopRecording (s : MState) (id j : Nat) :
    getStream (stopRecording s id) j = getStream s j := by
  unfold getStream
  rw [streams_stopRecording]

theorem writes_startRecording (s : MState) (st st' : StreamRec)
    (h : getStream s st.id = some st') :
    (startRecording s st).writes = s.writes ++ [(st.id, FieldW.pathsW)] := by
  unfold startRecording
  rw [writes_recordWrites_known _ _ _ (setPaths st.id st')
    (getStream_updStream_self _ st.id _ (setPaths_id st.id) st' (by exact h))]
  rfl

/-- No stream row ever carries the `error` status: the guard invariant the
code actually maintains (no code path writes `'error'`). -/
def noError (s : MState) : Prop :=
  ∀ r ∈ s.streams, r.status ≠ Status.error

instance (s : MState) : Decidable (noError s) := by
  unfold noError
  infer_instance

theorem noError_map_pres (l : List StreamRec) (id : Nat)
    (f : StreamRec → StreamRec)
    (hf : ∀ r, (f r).status = r.status ∨ (f r).status ≠ Status.error)
    (h : ∀ r ∈ l, r.status ≠ Status.error) :
    ∀ r ∈ l.map (fun r => if r.id == id then f r else r),
      r.status ≠ Status.error := by
  intro r hr
  rw [List.mem_map] at hr
  obtain ⟨a, ha, rfl⟩ := hr
  by_cases hc : a.id = id
  · have hb : (a.id == id) = true := by simpa using hc
    rw [if_pos hb]
    rcases hf a with heq | hne
    · rw [heq]; exact h a ha
    · exact hne
  · have hb : (a.id == id) = false := by simpa using hc
    rw [if_neg (by simp [hb])]
    exact h a ha

theorem noError_updStream (s : MState) (id : Nat) (f : StreamRec → StreamRec)
    (hf : ∀ r, (f r).status = r.status ∨ (f r).status ≠ Status.error)
    (h : noError s) : noError (updStream s id f) := by
  unfold noError at *
  rw [streams_updStream]
  exact noError_map_pres s.streams id f hf h

theorem noError_recordWrites (s : MState) (id : Nat) (fs : List FieldW)
    (h : noError s) : noError (recordWrites s id fs) := by
  unfold noError at *
  rw [streams_recordWrites]
  exact h

theorem noError_logEvent (s : MState) (id : Nat) (ty : String)
    (h : noError s) : noError (logEvent s id ty) := h

theorem noError_wsNotify (s : MState) (ty : String)
    (h : noError s) : noError (wsNotify s ty) := h

theorem noError_stopRecording (s : MState) (id : Nat)
    (h : noError s) : noError (stopRecording s id) := by
  unfold noError at *
  rw [streams_stopRecording]
  exact h

theorem noError_startRecording (s : MState) (st : StreamRec)
    (h : noError s) : noError (startRecording s st) := by
  unfold noError at *
  rw [streams_startRecording]
  exact noError_map_pres s.streams st.id (setPaths st.id)
    (fun r => Or.inl rfl) h

theorem noError_setLive (now : Nat) :
    ∀ r, (setLive now r).status = r.status ∨
      (setLive now r).status ≠ Status.error := by
  intro r
  right
  simp [setLive]

theorem noError_setEnded (now : Nat) (d : Int) :
    ∀ r, (setEnded now d r).status = r.status ∨
      (setEnded now d r).status ≠ Status.error := by
  intro r
  right
  simp [setEnded]

theorem noError_step (s : MState) (t : Trig) (h : noError s) :
    noError (step s t) := by
  cases t with
  | start now id rf =>
    show noError (startStream now id rf s).1
    cases hg : getStream s id with
    | none => rw [startStream_unknown now id rf s hg]; exact h
    | some st =>
      by_cases hl : st.status = Status.live
      · rw [startStream_alreadyLive now id rf s st hg hl]; exact h
      · cases rf with
        | false =>
          rw [startStream_ok now id s st hg hl]
          exact noError_wsNotify _ _ (noError_logEvent _ _ _
            (noError_startRecording _ _ (noError_recordWrites _ _ _
              (noError_updStream _ _ _ (noError_setLive now) h))))
        | true =>
          rw [startStream_resFail now id s st hg hl]
          exact noError_recordWrites _ _ _
            (noError_updStream _ _ _ (noError_setLive now) h)
  | stop now id =>
    show noError (stopStream now id s).1
    cases hg : getStream s id with
    | none => rw [stopStream_unknown now id s hg]; exact h
    | some st =>
      rw [stopStream_known now id s st hg]
      exact noError_wsNotify _ _ (noError_logEvent _ _ _
        (noError_recordWrites _ _ _ (noError_updStream _ _ _
          (noError_setEnded now _) (noError_stopRecording _ _ h))))
  | pub now k =>
    show noError (publish now k s).1
    cases hg : findByIngest s k with
    | none => rw [publish_unknown now k s hg]; exact h
    | some st =>
      rw [publish_known now k s st hg]
      exact noError_logEvent _ _ _ (noError_recordWrites _ _ _
        (noError_updStream _ _ _ (noError_setLive now) h))
  | unpub now k =>
    show noError (unpublish now k s).1
    cases hg : findByIngest s k with
    | none => rw [unpublish_unknown now k s hg]; exact h
    | some st =>
      rw [unpublish_known now k s st hg]
      exact noError_logEvent _ _ _ (noError_recordWrites _ _ _
        (noError_updStream _ _ _ (noError_setEnded now _) h))
  | procExit id =>
    show noError (onProcessExit id s)
    exact h

theorem noError_run (s : MState) (ts : List Trig) (h : noError s) :
    noError (run s ts) := by
  induction ts generalizing s with
  | nil => exact h
  | cons t ts ih =>
    show noError (run (step s t) ts)
    exact ih (step s t) (noError_step s t h)

/-!  Concrete fixture states used by counterexamples and witnesses. -/

/-- A freshly created stream row, id 1, ingest key 7. -/
def recBase : StreamRec :=
  { id := 1, ingest_key := 7, status := Status.created, start_time := none,
    end_time := none, duration := none, recording_path := none,
    hls_path := none, metadata := [("category", "gaming")],
    viewer_count := 3, max_viewers := 5 }

/-- State with the single freshly created stream. -/
def stCreated : MState :=
  { streams := [recBase], events := [], handles := [], spawned := [],
    killed := [], broadcasts := [], writes := [], nextPid := 0, fsPaths := [] }

/-- The stream row of id 1 while live (started at t = 5000 ms). -/
def recLive1 : StreamRec :=
  { recBase with status := Status.live, start_time := some 5000 }

/-- State with the single stream live. -/
def stLive : MState := { stCreated with streams := [recLive1] }

/-- The stream row of id 1 after it ended. -/
def recEnded1 : StreamRec :=
  { recBase with
    status := Status.ended, start_time := some 1000,
    end_time := some 5000, duration := some 4 }

/-- State with the single stream ended. -/
def stEnded : MState := { stCreated with streams := [recEnded1] }

/-- Live stream with an active recording handle (pid 42). -/
def stLiveH : MState := { stLive with handles := [(1, 42)] }

/-- Live stream 1 (pid 42) plus an unrelated handle for stream 2 (pid 43). -/
def stTwoH : MState := { stLive with handles := [(1, 42), (2, 43)] }

/-- The live stream row of id 1 with artifact paths recorded. -/
def recDel1 : StreamRec :=
  { recLive1 with
    recording_path := some "./storage/recordings/1.mp4",
    hls_path := some "./storage/hls/1/index.m3u8" }

/-- Live stream with recording/HLS artifacts on disk and a live handle. -/
def stDel : MState :=
  { stLive with
    streams := [recDel1],
    handles := [(1, 42)],
    fsPaths := ["./storage/hls/1", "./storage/recordings/1.mp4"] }

theorem spawned_logEvent (s : MState) (id : Nat) (ty : String) :
    (logEvent s id ty).spawned = s.spawned := rfl

theorem handles_logEvent (s : MState) (id : Nat) (ty : String) :
    (logEvent s id ty).handles = s.handles := rfl

theorem writes_logEvent (s : MState) (id : Nat) (ty : String) :
    (logEvent s id ty).writes = s.writes := rfl

theorem spawned_wsNotify (s : MState) (ty : String) :
    (wsNotify s ty).spawned = s.spawned := rfl

theorem handles_wsNotify (s : MState) (ty : String) :
    (wsNotify s ty).handles = s.handles := rfl

theorem writes_wsNotify (s : MState) (ty : String) :
    (wsNotify s ty).writes = s.writes := rfl

theorem spawned_updStream (s : MState) (id : Nat) (f : StreamRec → StreamRec) :
    (updStream s id f).spawned = s.spawned := rfl

theorem handles_updStream (s : MState) (id : Nat) (f : StreamRec → StreamRec) :
    (updStream s id f).handles = s.handles := rfl

theorem writes_updStream (s : MState) (id : Nat) (f : StreamRec → StreamRec) :
    (updStream s id f).writes = s.writes := rfl

/-!  ## Claims -/

/-- C1, counterexample.  The claim says a start trigger on a `live` stream
is rejected and causes no state change for both trigger origins.  For the
ingest origin this is false: on the live stream of `stLive` (ingest key 7,
`start_time = 5000`) the /publish handler succeeds (no error) and
overwrites `start_time` with the current time. -/
theorem C1_counterexample :
    (publish 9000 7 stLive).2 = none ∧
    (getStream (publish 9000 7 stLive).1 1).map (fun r => r.start_time) =
      some (some 9000) := by
  decide

/-- C1, amended.  `startStream` (control API) on a live stream fails with
the `AlreadyLive` error and changes nothing; but the ingest-side /publish
signal for the same live stream is not rejected: it succeeds and re-writes
`status = 'live'` and `start_time = now`. -/
theorem C1_theorem (now id key : Nat) (rf : Bool) (s : MState)
    (st : StreamRec) (hst : getStream s id = some st)
    (hl : st.status = Status.live) (hkey : findByIngest s key = some st) :
    startStream now id rf s = (s, some SMErr.alreadyLive) ∧
    (publish now key s).2 = none ∧
    (getStream (publish now key s).1 id).map (fun r => r.start_time) =
      some (some now) := by
  have hid : st.id = id := find?_some_id hst
  refine ⟨startStream_alreadyLive now id rf s st hst hl, ?_, ?_⟩
  · rw [publish_known now key s st hkey]
  · rw [publish_known now key s st hkey]
    show (getStream (logEvent _ _ _) id).map _ = _
    rw [getStream_logEvent, getStream_recordWrites, hid,
      getStream_updStream_self s id (setLive now) (setLive_id now) st hst]
    rfl

/-- C1, witness for the amended theorem at the concrete live fixture. -/
theorem C1_witness :
    startStream 9000 1 false stLive = (stLive, some SMErr.alreadyLive) ∧
    (publish 9000 7 stLive).2 = none ∧
    (getStream (publish 9000 7 stLive).1 1).map (fun r => r.start_time) =
      some (some 9000) :=
  C1_theorem 9000 1 7 false stLive recLive1 (by decide) (by decide) (by decide)

/-- C2, counterexample.  The claim says `ended` is terminal: every further
trigger is rejected and a stream in `ended` can never return to `live`.
False: `startStream` on the ended stream of `stEnded` succeeds (its guard
only checks `status === 'live'`) and puts the stream back in `live`. -/
theorem C2_counterexample :
    (startStream 9000 1 false stEnded).2 = none ∧
    (getStream (startStream 9000 1 false stEnded).1 1).map (fun r => r.status) =
      some Status.live := by
  decide

/-- C2, amended.  What the code does maintain: (1) the `error` status is
never assigned by any trigger sequence (`error` is unreachable, not a
reachable-and-terminal state); (2) the only guarded transition is start
on a live stream — in particular a stream in `ended` accepts a start
trigger and returns to `live`. -/
theorem C2_theorem :
    (∀ (s : MState) (ts : List Trig), noError s → noError (run s ts)) ∧
    (∀ (now id : Nat) (s : MState) (st : StreamRec),
      getStream s id = some st → st.status = Status.ended →
      (startStream now id false s).2 = none ∧
      (getStream (startStream now id false s).1 id).map (fun r => r.status) =
        some Status.live) := by
  constructor
  · exact fun s ts h => noError_run s ts h
  · intro now id s st hst hend
    have hnl : st.status ≠ Status.live := by
      rw [hend]
      exact fun hc => Status.noConfusion hc
    have hid : st.id = id := find?_some_id hst
    rw [startStream_ok now id s st hst hnl]
    refine ⟨rfl, ?_⟩
    show (getStream (wsNotify _ _) id).map _ = _
    rw [getStream_wsNotify, getStream_logEvent]
    have hX : getStream
        (recordWrites (updStream s id (setLive now))
          id [FieldW.statusW, FieldW.startTimeW]) st.id =
        some (setLive now st) := by
      rw [hid, getStream_recordWrites,
        getStream_updStream_self s id (setLive now) (setLive_id now) st hst]
    have hY := getStream_startRecording_self _ st (setLive now st) hX
    rw [hid] at hY
    rw [hY]
    rfl

/-- C2, witness: the invariant and the ended-to-live restart at the
concrete ended fixture. -/
theorem C2_witness :
    noError (run stEnded [Trig.start 9000 1 false, Trig.stop 12000 1]) ∧
    (startStream 9000 1 false stEnded).2 = none ∧
    (getStream (startStream 9000 1 false stEnded).1 1).map (fun r => r.status) =
      some Status.live := by
  refine ⟨C2_theorem.1 stEnded _ (by decide), ?_, ?_⟩
  · exact (C2_theorem.2 9000 1 stEnded recEnded1 (by decide) (by decide)).1
  · exact (C2_theorem.2 9000 1 stEnded recEnded1 (by decide) (by decide)).2

/-- C3, counterexample.  The claim says that when a control-API start and
an ingest publish race for the same (created) stream, exactly one
subprocess is spawned and the loser is rejected.  False: the /publish
handler spawns nothing at all, so when it commits first (here:
sequentially before the API start) the start is rejected and the total
number of spawned subprocesses is zero, not one. -/
theorem C3_counterexample :
    (publish 9000 7 stCreated).2 = none ∧
    (publish 9000 7 stCreated).1.spawned = [] ∧
    (publish 9000 7 stCreated).1.handles = [] ∧
    (startStream 9500 1 false (publish 9000 7 stCreated).1).2 =
      some SMErr.alreadyLive ∧
    (startStream 9500 1 false (publish 9000 7 stCreated).1).1.spawned = [] := by
  decide

/-- C3, amended.  The ingest publish path never spawns a subprocess and
never creates a recording handle; after it wins, the API start is rejected
with `AlreadyLive`, so the publish-first ordering produces zero spawns,
zero handles, and a rejected start. -/
theorem C3_theorem (t1 t2 key : Nat) (rf : Bool) (s : MState)
    (st : StreamRec) (hkey : findByIngest s key = some st)
    (hst : getStream s st.id = some st) (_hcr : st.status = Status.created) :
    (publish t1 key s).2 = none ∧
    (publish t1 key s).1.spawned = s.spawned ∧
    (publish t1 key s).1.handles = s.handles ∧
    startStream t2 st.id rf (publish t1 key s).1 =
      ((publish t1 key s).1, some SMErr.alreadyLive) := by
  rw [publish_known t1 key s st hkey]
  refine ⟨rfl, ?_, ?_, ?_⟩
  · rw [spawned_logEvent, spawned_recordWrites, spawned_updStream]
  · rw [handles_logEvent, handles_recordWrites, handles_updStream]
  · have hlive : getStream
        (logEvent
          (recordWrites (updStream s st.id (setLive t1))
            st.id [FieldW.statusW, FieldW.startTimeW])
          st.id "rtmp_publish_started") st.id = some (setLive t1 st) := by
      rw [getStream_logEvent, getStream_recordWrites,
        getStream_updStream_self s st.id (setLive t1) (setLive_id t1) st hst]
    exact startStream_alreadyLive t2 st.id rf _ (setLive t1 st) hlive rfl

/-- C3, witness at the created fixture (publish then start). -/
theorem C3_witness :
    (publish 9000 7 stCreated).2 = none ∧
    (publish 9000 7 stCreated).1.spawned = stCreated.spawned ∧
    (publish 9000 7 stCreated).1.handles = stCreated.handles ∧
    startStream 9500 1 false (publish 9000 7 stCreated).1 =
      ((publish 9000 7 stCreated).1, some SMErr.alreadyLive) :=
  C3_theorem 9000 9500 7 false stCreated recBase (by decide) (by decide)
    (by decide)

/-- C4, counterexample.  The claim says a `ResourceFailure` during start
leaves the stream in `created`.  False: on the created fixture, a failing
recording step still leaves the committed status update, so the stream's
persisted state is `live`. -/
theorem C4_counterexample :
    (startStream 9000 1 true stCreated).2 = some SMErr.resourceFailure ∧
    (getStream (startStream 9000 1 true stCreated).1 1).map (fun r => r.status) =
      some Status.live := by
  decide

/-- C4, amended.  A `ResourceFailure` during start surfaces as an error,
but the stream's persisted row has already been committed to
`status = 'live'`, `start_time = now` (the half-live state is observable);
only the handle map and the spawn log are untouched. -/
theorem C4_theorem (now id : Nat) (s : MState) (st : StreamRec)
    (hst : getStream s id = some st) (hnl : st.status ≠ Status.live) :
    (startStream now id true s).2 = some SMErr.resourceFailure ∧
    getStream (startStream now id true s).1 id = some (setLive now st) ∧
    (startStream now id true s).1.handles = s.handles ∧
    (startStream now id true s).1.spawned = s.spawned := by
  rw [startStream_resFail now id s st hst hnl]
  refine ⟨rfl, ?_, ?_, ?_⟩
  · rw [getStream_recordWrites,
      getStream_updStream_self s id (setLive now) (setLive_id now) st hst]
  · rw [handles_recordWrites, handles_updStream]
  · rw [spawned_recordWrites, spawned_updStream]

/-- C4, witness at the created fixture. -/
theorem C4_witness :
    (startStream 9000 1 true stCreated).2 = some SMErr.resourceFailure ∧
    getStream (startStream 9000 1 true stCreated).1 1 =
      some (setLive 9000 recBase) ∧
    (startStream 9000 1 true stCreated).1.handles = stCreated.handles ∧
    (startStream 9000 1 true stCreated).1.spawned = stCreated.spawned :=
  C4_theorem 9000 1 stCreated recBase (by decide) (by decide)

/-- C5, counterexample.  The claim says the second of two sequential
`stopStream` calls fails with `InvalidTransition`.  False: after
start-then-stop the stream is `ended`, and a further `stopStream` still
returns no error (`stopStream` never checks the status). -/
theorem C5_counterexample :
    (getStream (run stCreated [Trig.start 1000 1 false, Trig.stop 5000 1]) 1).map
      (fun r => r.status) = some Status.ended ∧
    (stopStream 9000 1
      (run stCreated [Trig.start 1000 1 false, Trig.stop 5000 1])).2 = none := by
  decide

/-- C5, amended.  `stopStream` on any existing stream always succeeds and
leaves it `ended` — the first call behaves as claimed, but the second call
succeeds again (re-ending the stream) instead of failing with
`InvalidTransition`; and stopping with no process handle is a no-op on the
handle map, not an error. -/
theorem C5_theorem (now now2 id : Nat) (s : MState) (st : StreamRec)
    (hst : getStream s id = some st) :
    (stopStream now id s).2 = none ∧
    (getStream (stopStream now id s).1 id).map (fun r => r.status) =
      some Status.ended ∧
    (stopStream now2 id (stopStream now id s).1).2 = none ∧
    (s.handles.find? (fun p => p.1 == id) = none → stopRecording s id = s) := by
  have hupd : getStream (updStream (stopRecording s id) id
      (setEnded now (computeDuration now st))) id =
      some (setEnded now (computeDuration now st) st) := by
    apply getStream_updStream_self _ id _ (setEnded_id now _)
    rw [getStream_stopRecording]
    exact hst
  have hB := stopStream_known now id s st hst
  have hB1 : (stopStream now id s).1 =
      wsNotify (logEvent
        (recordWrites (updStream (stopRecording s id) id
            (setEnded now (computeDuration now st)))
          id [FieldW.statusW, FieldW.endTimeW, FieldW.durationW])
        id "stream_ended") "stream_ended" := by
    rw [hB]
  have hgB : getStream (stopStream now id s).1 id =
      some (setEnded now (computeDuration now st) st) := by
    rw [hB1, getStream_wsNotify, getStream_logEvent, getStream_recordWrites]
    exact hupd
  refine ⟨?_, ?_, ?_, ?_⟩
  · rw [hB]
  · rw [hgB]
    rfl
  · rw [stopStream_known now2 id (stopStream now id s).1
      (setEnded now (computeDuration now st) st) hgB]
  · exact fun h => stopRecording_no_handle s id h

/-- C5, witness: double stop on the started fixture, and the no-handle
teardown no-op. -/
theorem C5_witness :
    (stopStream 5000 1 (startStream 1000 1 false stCreated).1).2 = none ∧
    (getStream (stopStream 5000 1 (startStream 1000 1 false stCreated).1).1 1).map
      (fun r => r.status) = some Status.ended ∧
    (stopStream 9000 1
      (stopStream 5000 1 (startStream 1000 1 false stCreated).1).1).2 = none ∧
    (stLive.handles.find? (fun p => p.1 == 1) = none → stopRecording stLive 1 = stLive) := by
  refine ⟨?_, ?_, ?_, ?_⟩
  · exact (C5_theorem 5000 9000 1 (startStream 1000 1 false stCreated).1
      (setPaths 1 (setLive 1000 recBase)) (by decide)).1
  · exact (C5_theorem 5000 9000 1 (startStream 1000 1 false stCreated).1
      (setPaths 1 (setLive 1000 recBase)) (by decide)).2.1
  · exact (C5_theorem 5000 9000 1 (startStream 1000 1 false stCreated).1
      (setPaths 1 (setLive 1000 recBase)) (by decide)).2.2.1
  · exact (C5_theorem 9000 9500 1 stLive recLive1 (by decide)).2.2.2

/-- C6, counterexample.  The claim says `end_time` and `duration` are
written exactly once for a stream that completes its lifecycle.  False:
the trace start, stop, stop reaches `ended` but writes `end_time` (and
`duration`) twice — the second stop rewrites both. -/
theorem C6_counterexample :
    (getStream (run stCreated
      [Trig.start 1000 1 false, Trig.stop 5000 1, Trig.stop 9000 1]) 1).map
      (fun r => r.status) = some Status.ended ∧
    countW (run stCreated
      [Trig.start 1000 1 false, Trig.stop 5000 1, Trig.stop 9000 1])
      1 FieldW.endTimeW = 2 ∧
    countW (run stCreated
      [Trig.start 1000 1 false, Trig.stop 5000 1, Trig.stop 9000 1])
      1 FieldW.durationW = 2 := by
  decide

/-- C6, amended.  In a lifecycle consisting of exactly one start and one
stop, `start_time` is written exactly once (on the transition into live),
`end_time` and `duration` exactly once (on the transition into ended), the
recorded timing fields are `start_time = t0`, `end_time = t1`,
`duration = ⌊(t1 - t0) / 1000⌋`, and a stream without `start_time` gets
duration 0; but the exactly-once property holds only for that minimal
trace — the code accepts repeated stops, which rewrite `end_time` and
`duration` (see the counterexample). -/
theorem C6_theorem (t0 t1 id : Nat) (s : MState) (st : StreamRec)
    (hst : getStream s id = some st) (hcr : st.status = Status.created) :
    countW (run s [Trig.start t0 id false, Trig.stop t1 id]) id FieldW.startTimeW
      = countW s id FieldW.startTimeW + 1 ∧
    countW (run s [Trig.start t0 id false, Trig.stop t1 id]) id FieldW.endTimeW
      = countW s id FieldW.endTimeW + 1 ∧
    countW (run s [Trig.start t0 id false, Trig.stop t1 id]) id FieldW.durationW
      = countW s id FieldW.durationW + 1 ∧
    (getStream (run s [Trig.start t0 id false, Trig.stop t1 id]) id).map
      (fun r => (r.start_time, r.end_time, r.duration)) =
      some (some t0, some t1, some (Int.fdiv ((t1 : Int) - (t0 : Int)) 1000)) ∧
    (∀ r : StreamRec, r.start_time = none → ∀ n, computeDuration n r = 0) := by
  have hid : st.id = id := find?_some_id hst
  have hnl : st.status ≠ Status.live := by
    rw [hcr]
    exact fun hc => Status.noConfusion hc
  have hrun : run s [Trig.start t0 id false, Trig.stop t1 id] =
      (stopStream t1 id (startStream t0 id false s).1).1 := rfl
  have hupd : getStream (updStream s id (setLive t0)) id = some (setLive t0 st) :=
    getStream_updStream_self s id (setLive t0) (setLive_id t0) st hst
  have hXg : getStream (recordWrites (updStream s id (setLive t0)) id
      [FieldW.statusW, FieldW.startTimeW]) st.id = some (setLive t0 st) := by
    rw [hid, getStream_recordWrites]
    exact hupd
  have hA := startStream_ok t0 id s st hst hnl
  have hA1 : (startStream t0 id false s).1 =
      wsNotify (logEvent
        (startRecording
          (recordWrites (updStream s id (setLive t0))
            id [FieldW.statusW, FieldW.startTimeW]) st)
        id "stream_started") "stream_started" := by
    rw [hA]
  have hgA : getStream (startStream t0 id false s).1 id =
      some (setPaths id (setLive t0 st)) := by
    rw [hA1, getStream_wsNotify, getStream_logEvent]
    have h2 := getStream_startRecording_self _ st (setLive t0 st) hXg
    rw [hid] at h2
    exact h2
  have wA : (startStream t0 id false s).1.writes =
      (s.writes ++ List.map (fun f => (id, f)) [FieldW.statusW, FieldW.startTimeW])
        ++ [(id, FieldW.pathsW)] := by
    rw [hA1, writes_wsNotify, writes_logEvent,
      writes_startRecording _ st (setLive t0 st) hXg,
      writes_recordWrites_known _ _ _ (setLive t0 st) hupd, writes_updStream, hid]
  have hstopupd : getStream (updStream
      (stopRecording (startStream t0 id false s).1 id) id
      (setEnded t1 (computeDuration t1 (setPaths id (setLive t0 st))))) id =
      some (setEnded t1 (computeDuration t1 (setPaths id (setLive t0 st)))
        (setPaths id (setLive t0 st))) := by
    apply getStream_updStream_self _ id _ (setEnded_id t1 _)
    rw [getStream_stopRecording]
    exact hgA
  have hB := stopStream_known t1 id (startStream t0 id false s).1
    (setPaths id (setLive t0 st)) hgA
  have hB1 : (stopStream t1 id (startStream t0 id false s).1).1 =
      wsNotify (logEvent
        (recordWrites (updStream
            (stopRecording (startStream t0 id false s).1 id) id
            (setEnded t1 (computeDuration t1 (setPaths id (setLive t0 st)))))
          id [FieldW.statusW, FieldW.endTimeW, FieldW.durationW])
        id "stream_ended") "stream_ended" := by
    rw [hB]
  have hgB : getStream (stopStream t1 id (startStream t0 id false s).1).1 id =
      some (setEnded t1 (computeDuration t1 (setPaths id (setLive t0 st)))
        (setPaths id (setLive t0 st))) := by
    rw [hB1, getStream_wsNotify, getStream_logEvent, getStream_recordWrites]
    exact hstopupd
  have wB : (stopStream t1 id (startStream t0 id false s).1).1.writes =
      (startStream t0 id false s).1.writes ++
        List.map (fun f => (id, f))
          [FieldW.statusW, FieldW.endTimeW, FieldW.durationW] := by
    rw [hB1, writes_wsNotify, writes_logEvent,
      writes_recordWrites_known _ _ _ _ hstopupd, writes_updStream,
      writes_stopRecording]
  refine ⟨?_, ?_, ?_, ?_, ?_⟩
  · unfold countW
    rw [hrun, wB, wA]
    simp [List.count_append, List.count_cons]
  · unfold countW
    rw [hrun, wB, wA]
    simp [List.count_append, List.count_cons]
  · unfold countW
    rw [hrun, wB, wA]
    simp [List.count_append, List.count_cons]
  · rw [hrun, hgB]
    rfl
  · intro r hr n
    unfold computeDuration
    rw [hr]

/-- C6, witness: the happy-path trace on the created fixture. -/
theorem C6_witness :
    countW (run stCreated [Trig.start 1000 1 false, Trig.stop 5500 1])
      1 FieldW.startTimeW = countW stCreated 1 FieldW.startTimeW + 1 ∧
    countW (run stCreated [Trig.start 1000 1 false, Trig.stop 5500 1])
      1 FieldW.endTimeW = countW stCreated 1 FieldW.endTimeW + 1 ∧
    countW (run stCreated [Trig.start 1000 1 false, Trig.stop 5500 1])
      1 FieldW.durationW = countW stCreated 1 FieldW.durationW + 1 ∧
    (getStream (run stCreated [Trig.start 1000 1 false, Trig.stop 5500 1]) 1).map
      (fun r => (r.start_time, r.end_time, r.duration)) =
      some (some 1000, some 5500, some (Int.fdiv ((5500 : Int) - (1000 : Int)) 1000)) ∧
    (∀ r : StreamRec, r.start_time = none → ∀ n, computeDuration n r = 0) :=
  C6_theorem 1000 5500 1 stCreated recBase (by decide) (by decide)

theorem removeRecordingFile_fail (st : StreamRec) (s : MState) (p : String)
    (hrp : st.recording_path = some p) (hc : s.fsPaths.contains p = true) :
    removeRecordingFile st true s = (s, some SMErr.fsFailure) := by
  have hm : p ∈ s.fsPaths := by simpa using hc
  unfold removeRecordingFile
  rw [hrp]
  simp [hm]

theorem removeRecordingFile_ok_snd (st : StreamRec) (s : MState) :
    (removeRecordingFile st false s).2 = none := by
  unfold removeRecordingFile
  cases st.recording_path with
  | none => rfl
  | some p =>
    by_cases hc : p ∈ s.fsPaths
    · simp [hc]
    · simp [hc]

theorem streams_removeRecordingFile (st : StreamRec) (b : Bool) (s : MState) :
    (removeRecordingFile st b s).1.streams = s.streams := by
  unfold removeRecordingFile
  cases st.recording_path with
  | none => rfl
  | some p =>
    by_cases hc : p ∈ s.fsPaths
    · cases b <;> simp [hc]
    · simp [hc]

theorem handles_removeRecordingFile (st : StreamRec) (b : Bool) (s : MState) :
    (removeRecordingFile st b s).1.handles = s.handles := by
  unfold removeRecordingFile
  cases st.recording_path with
  | none => rfl
  | some p =>
    by_cases hc : p ∈ s.fsPaths
    · cases b <;> simp [hc]
    · simp [hc]

theorem streams_removeHlsDir (st : StreamRec) (s : MState) :
    (removeHlsDir st s).streams = s.streams := by
  unfold removeHlsDir
  cases st.hls_path with
  | none => rfl
  | some hp =>
    by_cases hc : dirname hp ∈ s.fsPaths
    · simp [hc]
    · simp [hc]

theorem handles_removeHlsDir (st : StreamRec) (s : MState) :
    (removeHlsDir st s).handles = s.handles := by
  unfold removeHlsDir
  cases st.hls_path with
  | none => rfl
  | some hp =>
    by_cases hc : dirname hp ∈ s.fsPaths
    · simp [hc]
    · simp [hc]

theorem fsPaths_stopRecording (s : MState) (id : Nat) :
    (stopRecording s id).fsPaths = s.fsPaths := by
  unfold stopRecording
  split <;> rfl

theorem find?_filter_self_none (l : List StreamRec) (id : Nat) :
    (l.filter (fun r => ! (r.id == id))).find? (fun r => r.id == id) = none := by
  rw [List.find?_eq_none]
  intro x hx
  rw [List.mem_filter] at hx
  simpa using hx.2

theorem deleteStream_unknown (id : Nat) (b : Bool) (s : MState)
    (h : getStream s id = none) :
    deleteStream id b s = (s, some SMErr.notFound) := by
  unfold deleteStream
  rw [h]

theorem deleteStream_unlink_fail (id : Nat) (s : MState) (st : StreamRec)
    (p : String) (hst : getStream s id = some st)
    (hrp : st.recording_path = some p) (hc : s.fsPaths.contains p = true) :
    deleteStream id true s = (stopRecording s id, some SMErr.fsFailure) := by
  unfold deleteStream
  rw [hst]
  dsimp only
  rw [removeRecordingFile_fail st (stopRecording s id) p hrp
    (by rw [fsPaths_stopRecording]; exact hc)]

theorem deleteStream_ok (id : Nat) (s : MState) (st : StreamRec)
    (hst : getStream s id = some st) :
    deleteStream id false s =
      ({ removeHlsDir st (removeRecordingFile st false (stopRecording s id)).1 with
          streams := (removeHlsDir st
            (removeRecordingFile st false (stopRecording s id)).1).streams.filter
            (fun r => ! (r.id == id)) }, none) := by
  unfold deleteStream
  rw [hst]
  dsimp only
  cases hrr : removeRecordingFile st false (stopRecording s id) with
  | mk s2 e =>
    have he : e = none := by
      have h2 := removeRecordingFile_ok_snd st (stopRecording s id)
      rw [hrr] at h2
      exact h2
    subst he
    rfl

/-- C7, counterexample.  The claim says an unexpected subprocess exit of a
live stream moves the persisted state to `error` and emits a failure
event.  False: the ffmpeg close/error handlers only delete the handle —
on the live fixture with a handle, the status stays `live`, no event and
no notification is produced. -/
theorem C7_counterexample :
    (getStream (onProcessExit 1 stLiveH) 1).map (fun r => r.status) =
      some Status.live ∧
    (onProcessExit 1 stLiveH).events = stLiveH.events ∧
    (onProcessExit 1 stLiveH).broadcasts = stLiveH.broadcasts ∧
    (onProcessExit 1 stLiveH).handles = [] := by
  decide

/-- C7, amended.  The subprocess-exit handler removes the stream's Active
Recording Handle (and keeps every other stream's handle) but changes
nothing else: no status transition to `error`, no lifecycle event, no
notification. -/
theorem C7_theorem (id : Nat) (s : MState) :
    (onProcessExit id s).streams = s.streams ∧
    (onProcessExit id s).events = s.events ∧
    (onProcessExit id s).broadcasts = s.broadcasts ∧
    (∀ p ∈ (onProcessExit id s).handles, p.1 ≠ id) ∧
    (∀ p ∈ s.handles, p.1 ≠ id → p ∈ (onProcessExit id s).handles) := by
  refine ⟨rfl, rfl, rfl, ?_, ?_⟩
  · intro p hp
    have h2 : p ∈ mapDelete s.handles id := hp
    unfold mapDelete at h2
    rw [List.mem_filter] at h2
    simpa using h2.2
  · intro p hp hne
    show p ∈ mapDelete s.handles id
    unfold mapDelete
    rw [List.mem_filter]
    exact ⟨hp, by simpa using hne⟩

/-- C7, witness: exit of stream 1's process keeps stream 2's handle and
the streams/events tables, at the two-handle fixture. -/
theorem C7_witness :
    (onProcessExit 1 stTwoH).streams = stTwoH.streams ∧
    (onProcessExit 1 stTwoH).events = stTwoH.events ∧
    ((2, 43) : Nat × Nat) ∈ (onProcessExit 1 stTwoH).handles :=
  ⟨(C7_theorem 1 stTwoH).1, (C7_theorem 1 stTwoH).2.1,
    (C7_theorem 1 stTwoH).2.2.2.2 (2, 43) (by decide) (by decide)⟩

/-- C8, counterexample.  The claim says a failure to remove an artifact
file is logged but never prevents removal of the persisted record.  False:
on the fixture with an existing recording file, a throwing `unlinkSync`
propagates out of `deleteStream` and the stream row is still in the
table. -/
theorem C8_counterexample :
    (deleteStream 1 true stDel).2 = some SMErr.fsFailure ∧
    (deleteStream 1 true stDel).1.streams = stDel.streams := by
  decide

/-- C8, amended.  `deleteStream` on an unknown id fails with `NotFound`;
on an existing stream it force-stops the recording, removes the artifact
files and then deletes the row — but a recording-file removal failure
propagates as an error and the persisted record is NOT removed (only a
missing file is skipped silently). -/
theorem C8_theorem (id : Nat) (b : Bool) (s : MState) :
    (getStream s id = none → deleteStream id b s = (s, some SMErr.notFound)) ∧
    (∀ st p, getStream s id = some st → st.recording_path = some p →
      s.fsPaths.contains p = true →
      (deleteStream id true s).2 = some SMErr.fsFailure ∧
      (deleteStream id true s).1.streams = s.streams) ∧
    (∀ st, getStream s id = some st →
      (deleteStream id false s).2 = none ∧
      getStream (deleteStream id false s).1 id = none ∧
      (deleteStream id false s).1.handles = mapDelete s.handles id) := by
  refine ⟨?_, ?_, ?_⟩
  · exact fun h => deleteStream_unknown id b s h
  · intro st p hst hrp hc
    rw [deleteStream_unlink_fail id s st p hst hrp hc]
    exact ⟨rfl, streams_stopRecording s id⟩
  · intro st hst
    rw [deleteStream_ok id s st hst]
    refine ⟨rfl, ?_, ?_⟩
    · exact find?_filter_self_none _ id
    · show (removeHlsDir st (removeRecordingFile st false (stopRecording s id)).1).handles
        = mapDelete s.handles id
      rw [handles_removeHlsDir, handles_removeRecordingFile,
        handles_stopRecording]

/-- C8, witness: unknown id, failing unlink, and the successful deletion
path, at the artifact fixture. -/
theorem C8_witness :
    deleteStream 3 false stDel = (stDel, some SMErr.notFound) ∧
    (deleteStream 1 true stDel).2 = some SMErr.fsFailure ∧
    (deleteStream 1 true stDel).1.streams = stDel.streams ∧
    (deleteStream 1 false stDel).2 = none ∧
    getStream (deleteStream 1 false stDel).1 1 = none ∧
    (deleteStream 1 false stDel).1.handles = mapDelete stDel.handles 1 := by
  refine ⟨(C8_theorem 3 false stDel).1 (by decide), ?_, ?_, ?_, ?_, ?_⟩
  · exact ((C8_theorem 1 false stDel).2.1 recDel1 "./storage/recordings/1.mp4"
      (by decide) (by decide) (by decide)).1
  · exact ((C8_theorem 1 false stDel).2.1 recDel1 "./storage/recordings/1.mp4"
      (by decide) (by decide) (by decide)).2
  · exact ((C8_theorem 1 false stDel).2.2 recDel1 (by decide)).1
  · exact ((C8_theorem 1 false stDel).2.2 recDel1 (by decide)).2.1
  · exact ((C8_theorem 1 false stDel).2.2 recDel1 (by decide)).2.2

/-- An observer whose sends succeed. -/
def wcGood : WClient :=
  { cid := 1, readyState := WReadyState.OPEN, inbox := [],
    sendFails := false, pendingError := false }

/-- An observer whose sends fail. -/
def wcBad : WClient :=
  { cid := 2, readyState := WReadyState.OPEN, inbox := [],
    sendFails := true, pendingError := false }

/-- A two-observer fixture: a failing observer first, a healthy one
second. -/
def wsFix : WSState := { clients := [wcBad, wcGood] }

/-- C9.  A send failure to one observer does not prevent delivery to the
remaining observers — delivery is attempted independently per client — and
the failing observer is removed from the set once its socket's error event
has fired. -/
theorem C9_theorem (ty md ts : String) (s : WSState) :
    (∀ c ∈ s.clients, c.readyState = WReadyState.OPEN → c.sendFails = false →
      c.pendingError = false →
      { c with inbox := c.inbox ++ [⟨ty, md, ts⟩] } ∈
        (fireErrors (broadcast ty md ts s)).clients) ∧
    (∀ c ∈ (fireErrors (broadcast ty md ts s)).clients,
      ¬ (c.readyState = WReadyState.OPEN ∧ c.sendFails = true)) := by
  constructor
  · intro c hc hopen hsf hpe
    show _ ∈ ((broadcast ty md ts s).clients.filter (fun c => ! c.pendingError))
    rw [List.mem_filter]
    constructor
    · show _ ∈ s.clients.map _
      rw [List.mem_map]
      refine ⟨c, hc, ?_⟩
      rw [if_pos hopen, if_neg (by simp [hsf])]
    · simpa using hpe
  · intro c hc
    rintro ⟨hopen, hsf⟩
    have hc2 : c ∈ (broadcast ty md ts s).clients.filter
        (fun c => ! c.pendingError) := hc
    rw [List.mem_filter] at hc2
    obtain ⟨hmem, hpe⟩ := hc2
    have hmem2 : c ∈ s.clients.map (fun c =>
        if c.readyState = WReadyState.OPEN then
          if c.sendFails then { c with pendingError := true }
          else { c with inbox := c.inbox ++ [⟨ty, md, ts⟩] }
        else c) := hmem
    rw [List.mem_map] at hmem2
    obtain ⟨a, _ha, hga⟩ := hmem2
    by_cases hao : a.readyState = WReadyState.OPEN
    · by_cases haf : a.sendFails = true
      · rw [if_pos hao, if_pos haf] at hga
        subst hga
        simp at hpe
      · rw [if_pos hao, if_neg haf] at hga
        subst hga
        exact haf hsf
    · rw [if_neg hao] at hga
      subst hga
      exact hao hopen

/-- C9, witness: broadcasting over the two-observer fixture delivers to
the healthy observer and leaves no failing observer in the set. -/
theorem C9_witness :
    { wcGood with inbox := wcGood.inbox ++ [⟨"stream_started", "d", "t"⟩] } ∈
      (fireErrors (broadcast "stream_started" "d" "t" wsFix)).clients ∧
    (∀ c ∈ (fireErrors (broadcast "stream_started" "d" "t" wsFix)).clients,
      ¬ (c.readyState = WReadyState.OPEN ∧ c.sendFails = true)) := by
  have h := C9_theorem "stream_started" "d" "t" wsFix
  exact ⟨h.1 wcGood (by decide) rfl rfl rfl, h.2⟩

/-- C10.  `updateStreamMetadata` replaces the stored metadata of the
matching row with exactly the given object (no merge) and leaves every
other column and every other row unchanged; on an unknown id it is a
complete no-op (no `NotFound`, no change to the store). -/
theorem C10_theorem (id : Nat) (md : List (String × String)) (s : MState) :
    getStream (updateStreamMetadata id md s) id =
      (getStream s id).map (setMeta md) ∧
    (∀ j, j ≠ id →
      getStream (updateStreamMetadata id md s) j = getStream s j) ∧
    (updateStreamMetadata id md s).events = s.events ∧
    (updateStreamMetadata id md s).handles = s.handles ∧
    (getStream s id = none → updateStreamMetadata id md s = s) ∧
    (∀ r : StreamRec, (setMeta md r).metadata = md ∧
      (setMeta md r).id = r.id ∧ (setMeta md r).ingest_key = r.ingest_key ∧
      (setMeta md r).status = r.status ∧
      (setMeta md r).start_time = r.start_time ∧
      (setMeta md r).end_time = r.end_time ∧
      (setMeta md r).duration = r.duration ∧
      (setMeta md r).recording_path = r.recording_path ∧
      (setMeta md r).hls_path = r.hls_path ∧
      (setMeta md r).viewer_count = r.viewer_count ∧
      (setMeta md r).max_viewers = r.max_viewers) := by
  refine ⟨?_, ?_, ?_, ?_, ?_, ?_⟩
  · cases hg : getStream s id with
    | none =>
      unfold updateStreamMetadata
      rw [updStream_unknown s id _ hg, recordWrites_unknown s id _ hg, hg]
      rfl
    | some st =>
      unfold updateStreamMetadata
      rw [getStream_recordWrites,
        getStream_updStream_self s id (setMeta md) (setMeta_id md) st hg]
      rfl
  · intro j hj
    unfold updateStreamMetadata
    rw [getStream_recordWrites,
      getStream_updStream_ne s id j (setMeta md) (setMeta_id md) hj]
  · unfold updateStreamMetadata
    rw [events_recordWrites]
    rfl
  · unfold updateStreamMetadata
    rw [handles_recordWrites, handles_updStream]
  · intro h
    unfold updateStreamMetadata
    rw [updStream_unknown s id _ h, recordWrites_unknown s id _ h]
  · intro r
    exact ⟨rfl, rfl, rfl, rfl, rfl, rfl, rfl, rfl, rfl, rfl, rfl⟩

/-- C10, witness: exact replacement on the known id, frame on another id,
and the unknown-id no-op, at the created fixture. -/
theorem C10_witness :
    getStream (updateStreamMetadata 1 [("quizEnabled", "true")] stCreated) 1 =
      (getStream stCreated 1).map (setMeta [("quizEnabled", "true")]) ∧
    getStream (updateStreamMetadata 1 [("quizEnabled", "true")] stCreated) 2 =
      getStream stCreated 2 ∧
    updateStreamMetadata 9 [("a", "b")] stCreated = stCreated :=
  ⟨(C10_theorem 1 [("quizEnabled", "true")] stCreated).1,
    (C10_theorem 1 [("quizEnabled", "true")] stCreated).2.1 2 (by decide),
    (C10_theorem 9 [("a", "b")] stCreated).2.2.2.2.1 (by decide)⟩
